import Mathlib

/-!
Shallow embedding of the monitor-tui core: the status data model
(`src/monitor-tui/src/checker/types.rs`), the bounded history stores
(`src/monitor-tui/src/history.rs`, `src/monitor-tui/src/alerts/history.rs`),
the alert-detection state machine
(`src/monitor-tui/src/alerts/detector.rs`), the scheduler's wait-interval
computation (`src/monitor-tui/src/checker/mod.rs`) and the orchestration step
`App::handle_check_result` (`src/monitor-tui/src/app.rs`).

Rust `u64`/`usize` become `Nat`; `DateTime<Utc>` timestamps become `Int`
(seconds); `chrono::Duration` comparisons become `Int` comparisons;
`VecDeque` becomes `List` (front = head, back = last); `HashMap` becomes an
association list keyed by name (the maps here are built from the config's
site list, so keys are the site names).  `Utc::now()` becomes an explicit
`now : Int` parameter; the two `Utc::now()` calls inside one
`AlertDetector::evaluate` call are identified with that single parameter.
-/

namespace Monitor

/-- `Status` from `checker/types.rs`. -/
inductive Status where
  | Up
  | Down
  | Warning
deriving DecidableEq, Repr

/-- `StatusTransition` from `alerts/detector.rs`. -/
inductive StatusTransition where
  | UpToDown
  | UpToWarn
  | DownToUp
  | WarnToDown
  | WarnToUp
  | DownToWarn
deriving DecidableEq, Repr

/-- `StatusTransition::from_statuses` from `alerts/detector.rs`. -/
def StatusTransition.from_statuses : Status → Status → Option StatusTransition
  | Status.Up, Status.Down => some StatusTransition.UpToDown
  | Status.Up, Status.Warning => some StatusTransition.UpToWarn
  | Status.Down, Status.Up => some StatusTransition.DownToUp
  | Status.Warning, Status.Down => some StatusTransition.WarnToDown
  | Status.Warning, Status.Up => some StatusTransition.WarnToUp
  | Status.Down, Status.Warning => some StatusTransition.DownToWarn
  | _, _ => none

/-- `CheckResult` from `checker/types.rs`. -/
structure CheckResult where
  timestamp : Int
  status : Status
  response_time_ms : Option Nat
  http_status : Option Nat
  error_message : Option String
deriving DecidableEq, Repr

/-- `SiteHistory` from `history.rs`: `results` is the `VecDeque` with its
front at the list head (oldest) and its back at the list end (newest). -/
structure SiteHistory where
  results : List CheckResult
  max_size : Nat
deriving DecidableEq, Repr

/-- `SiteHistory::new`. -/
def SiteHistory.new (max_size : Nat) : SiteHistory :=
  { results := [], max_size := max_size }

/-- `SiteHistory::add_result`: `pop_front` when `len() >= max_size`, then
`push_back`.  `pop_front` on an empty deque is a no-op, as is `List.tail`
on `[]`. -/
def SiteHistory.add_result (h : SiteHistory) (result : CheckResult) : SiteHistory :=
  { h with results :=
      (if h.results.length ≥ h.max_size then h.results.tail else h.results) ++ [result] }

/-- `SiteHistory::latest`: the back of the deque. -/
def SiteHistory.latest (h : SiteHistory) : Option CheckResult :=
  h.results.getLast?

/-- `SiteHistory::len`. -/
def SiteHistory.len (h : SiteHistory) : Nat :=
  h.results.length

/-- `SiteHistory::recent_response_times`:
`iter().rev().take(limit).filter_map(response_time_ms)` collected and then
reversed back into chronological order. -/
def SiteHistory.recent_response_times (h : SiteHistory) (limit : Nat) : List Nat :=
  ((h.results.reverse.take limit).filterMap (fun r => r.response_time_ms)).reverse

/-- `AlertSeverity` from `alerts/history.rs`. -/
inductive AlertSeverity where
  | Critical
  | Warning
  | Recovery
deriving DecidableEq, Repr

/-- `AlertSeverity::from_transition`. -/
def AlertSeverity.from_transition : StatusTransition → AlertSeverity
  | StatusTransition.UpToDown => AlertSeverity.Critical
  | StatusTransition.WarnToDown => AlertSeverity.Critical
  | StatusTransition.UpToWarn => AlertSeverity.Warning
  | StatusTransition.DownToUp => AlertSeverity.Recovery
  | StatusTransition.WarnToUp => AlertSeverity.Recovery
  | StatusTransition.DownToWarn => AlertSeverity.Warning

/-- `Alert` from `alerts/history.rs`. -/
structure Alert where
  timestamp : Int
  site_name : String
  transition : StatusTransition
  severity : AlertSeverity
  current_status : Status
  previous_status : Status
  message : String
deriving DecidableEq, Repr

/-- `Alert::format_message`. -/
def Alert.format_message (site_name : String) : StatusTransition → String
  | StatusTransition.UpToDown => site_name ++ " is DOWN"
  | StatusTransition.UpToWarn => site_name ++ " has WARNING status"
  | StatusTransition.DownToUp => site_name ++ " has RECOVERED"
  | StatusTransition.WarnToDown => site_name ++ " went from WARNING to DOWN"
  | StatusTransition.WarnToUp => site_name ++ " recovered from WARNING"
  | StatusTransition.DownToWarn => site_name ++ " went from DOWN to WARNING"

/-- `Alert::new`; `Utc::now()` is the explicit `now` argument. -/
def Alert.new (now : Int) (site_name : String) (transition : StatusTransition)
    (previous_status : Status) (current_status : Status) : Alert :=
  { timestamp := now
    site_name := site_name
    transition := transition
    severity := AlertSeverity.from_transition transition
    current_status := current_status
    previous_status := previous_status
    message := Alert.format_message site_name transition }

/-- `AlertHistory` from `alerts/history.rs`. -/
structure AlertHistory where
  alerts : List Alert
  max_size : Nat
deriving DecidableEq, Repr

/-- `AlertHistory::new`. -/
def AlertHistory.new (max_size : Nat) : AlertHistory :=
  { alerts := [], max_size := max_size }

/-- `AlertHistory::add_alert`: same eviction discipline as
`SiteHistory::add_result`. -/
def AlertHistory.add_alert (h : AlertHistory) (alert : Alert) : AlertHistory :=
  { h with alerts :=
      (if h.alerts.length ≥ h.max_size then h.alerts.tail else h.alerts) ++ [alert] }

/-- `AlertHistory::len`. -/
def AlertHistory.len (h : AlertHistory) : Nat :=
  h.alerts.length

/-- `AlertHistory::by_severity`. -/
def AlertHistory.by_severity (h : AlertHistory) (severity : AlertSeverity) : List Alert :=
  h.alerts.filter (fun a => a.severity == severity)

/-- `AlertHistory::by_site`. -/
def AlertHistory.by_site (h : AlertHistory) (site_name : String) : List Alert :=
  h.alerts.filter (fun a => a.site_name == site_name)

/-- `TransitionSettings` from `config.rs`. -/
structure TransitionSettings where
  up_to_down : Bool
  up_to_warn : Bool
  down_to_up : Bool
  warn_to_down : Bool
  warn_to_up : Bool
  down_to_warn : Bool
deriving DecidableEq, Repr

/-- `impl Default for TransitionSettings` from `config.rs`. -/
def TransitionSettings.default_value : TransitionSettings :=
  { up_to_down := true
    up_to_warn := false
    down_to_up := true
    warn_to_down := true
    warn_to_up := true
    down_to_warn := false }

/-- `AlertSettings` from `config.rs`. -/
structure AlertSettings where
  enabled : Bool
  terminal_bell : Bool
  desktop_notifications : Bool
  alert_history_size : Nat
  consecutive_failures : Nat
  cooldown_seconds : Nat
  transitions : TransitionSettings
deriving DecidableEq, Repr

/-- `impl Default for AlertSettings` from `config.rs`. -/
def AlertSettings.default_value : AlertSettings :=
  { enabled := true
    terminal_bell := true
    desktop_notifications := true
    alert_history_size := 200
    consecutive_failures := 2
    cooldown_seconds := 300
    transitions := TransitionSettings.default_value }

/-- `SiteAlertSettings` from `config.rs`: per-site optional overrides. -/
structure SiteAlertSettings where
  enabled : Option Bool
  consecutive_failures : Option Nat
  cooldown_seconds : Option Nat
  terminal_bell : Option Bool
  desktop_notifications : Option Bool
deriving DecidableEq, Repr

/-- `SiteConfig` from `config.rs`. -/
structure SiteConfig where
  name : String
  url : String
  expected_status : Nat
  check_interval : Option Nat
  alerts : Option SiteAlertSettings
deriving DecidableEq, Repr

/-- `Settings` from `config.rs`. -/
structure Settings where
  refresh_interval : Nat
  history_size : Nat
  request_timeout : Nat
  alerts : AlertSettings
deriving DecidableEq, Repr

/-- `Config` from `config.rs`. -/
structure Config where
  settings : Settings
  sites : List SiteConfig
deriving DecidableEq, Repr

/-- The inter-check wait computed in `spawn_checker_task`
(`checker/mod.rs`): `site.check_interval.unwrap_or(default_interval)`
seconds. -/
def checkerWaitInterval (site : SiteConfig) (default_interval : Nat) : Nat :=
  site.check_interval.getD default_interval

/-- The wait the spec's Scheduler section asks for, word by word:
`max(endpoint.interval, default_interval)`, a missing override meaning the
default.  Kept separate from `checkerWaitInterval` so the two can be
compared. -/
def specWaitInterval (site : SiteConfig) (default_interval : Nat) : Nat :=
  max (site.check_interval.getD default_interval) default_interval

/-- `SiteAlertState` from `alerts/detector.rs`. -/
structure SiteAlertState where
  consecutive_failures : Nat
  last_alert_time : Option Int
  last_alert_status : Option Status
  stable_status : Option Status
deriving DecidableEq, Repr

/-- Lookup in an association list keyed by `String`, mirroring
`HashMap::get`. -/
def assocLookup {α : Type} (l : List (String × α)) (k : String) : Option α :=
  (l.find? (fun p => p.1 == k)).map (fun p => p.2)

/-- Replacement of the entry at a key, mirroring an in-place write through
`HashMap::get_mut`. -/
def assocUpdate {α : Type} (l : List (String × α)) (k : String) (v : α) :
    List (String × α) :=
  l.map (fun p => if p.1 == k then (k, v) else p)

/-- `AlertDetector` from `alerts/detector.rs`: the `HashMap<String,
SiteAlertState>` becomes an association list. -/
structure AlertDetector where
  config : Config
  site_states : List (String × SiteAlertState)
deriving DecidableEq, Repr

/-- `AlertDetector::new`: one fresh `SiteAlertState` per configured site. -/
def AlertDetector.new (config : Config) : AlertDetector :=
  { config := config
    site_states := config.sites.map (fun site =>
      (site.name,
       { consecutive_failures := 0
         last_alert_time := none
         last_alert_status := none
         stable_status := none })) }

/-- `AlertDetector::evaluate` from `alerts/detector.rs`, with the mutable
`self` threaded explicitly: the returned detector is the post-state.
`Utc::now()` is the `now` argument. -/
def AlertDetector.evaluate (d : AlertDetector) (now : Int) (site_name : String)
    (previous_status : Option Status) (current_status : Status) :
    Option StatusTransition × AlertDetector :=
  match d.config.sites.find? (fun s => s.name == site_name) with
  | none => (none, d)
  | some site_config =>
    let global_alerts := d.config.settings.alerts
    let site_alerts := site_config.alerts
    let enabled := (site_alerts.bind (fun a => a.enabled)).getD global_alerts.enabled
    if enabled = false then (none, d)
    else
      match assocLookup d.site_states site_name with
      | none => (none, d)
      | some state =>
        -- Update stable status and consecutive failure count
        let state1 :=
          if current_status = Status.Down ∨ current_status = Status.Warning then
            { state with
              stable_status :=
                if state.consecutive_failures = 0 then previous_status
                else state.stable_status
              consecutive_failures := state.consecutive_failures + 1 }
          else
            { state with
              consecutive_failures := 0
              stable_status := some current_status }
        let d1 := { d with site_states := assocUpdate d.site_states site_name state1 }
        let threshold :=
          (site_alerts.bind (fun a => a.consecutive_failures)).getD
            global_alerts.consecutive_failures
        if (current_status = Status.Down ∨ current_status = Status.Warning) ∧
            state1.consecutive_failures < threshold then (none, d1)
        else
          let cooldown_seconds :=
            (site_alerts.bind (fun a => a.cooldown_seconds)).getD
              global_alerts.cooldown_seconds
          -- Cooldown: suppress only a repeat of the same alerted status
          let suppressed : Bool :=
            match state1.last_alert_time, state1.last_alert_status with
            | some last_time, some last_status =>
              decide (now - last_time < (cooldown_seconds : Int)) &&
                decide (last_status = current_status)
            | _, _ => false
          if suppressed then (none, d1)
          else
            let from_status :=
              if current_status = Status.Up then previous_status
              else state1.stable_status
            match from_status.bind
                (fun prev => StatusTransition.from_statuses prev current_status) with
            | none => (none, d1)
            | some transition =>
              let should_alert :=
                match transition with
                | StatusTransition.UpToDown => global_alerts.transitions.up_to_down
                | StatusTransition.UpToWarn => global_alerts.transitions.up_to_warn
                | StatusTransition.DownToUp => global_alerts.transitions.down_to_up
                | StatusTransition.WarnToDown => global_alerts.transitions.warn_to_down
                | StatusTransition.WarnToUp => global_alerts.transitions.warn_to_up
                | StatusTransition.DownToWarn => global_alerts.transitions.down_to_warn
              if should_alert then
                let state2 :=
                  { state1 with
                    last_alert_time := some now
                    last_alert_status := some current_status }
                (some transition,
                 { d with site_states := assocUpdate d.site_states site_name state2 })
              else (none, d1)

/-- `App` from `app.rs`, restricted to the fields
`App::handle_check_result` touches; the UI-only fields (theme, views,
selection indices, error banner, force-refresh sender) are dropped. -/
structure App where
  config : Config
  sites : List (String × SiteHistory)
  alert_history : AlertHistory
  alert_detector : AlertDetector
deriving DecidableEq, Repr

/-- `App::new` restricted the same way. -/
def App.new (config : Config) : App :=
  { config := config
    sites := config.sites.map (fun site =>
      (site.name, SiteHistory.new config.settings.history_size))
    alert_history := AlertHistory.new config.settings.alerts.alert_history_size
    alert_detector := AlertDetector.new config }

/-- `App::handle_check_result` from `app.rs`, with `self` threaded
explicitly and `Utc::now()` the `now` argument. -/
def App.handle_check_result (app : App) (now : Int) (site_name : String)
    (result : CheckResult) : Option Alert × App :=
  let previous_status :=
    ((assocLookup app.sites site_name).bind (fun h => h.latest)).map
      (fun r => r.status)
  let sites1 :=
    match assocLookup app.sites site_name with
    | some h => assocUpdate app.sites site_name (h.add_result result)
    | none => app.sites
  let er := app.alert_detector.evaluate now site_name previous_status result.status
  match er.1 with
  | some transition =>
    let alert := Alert.new now site_name transition
      (previous_status.getD Status.Up) result.status
    (some alert,
     { app with
       sites := sites1
       alert_detector := er.2
       alert_history := app.alert_history.add_alert alert })
  | none =>
    (none, { app with sites := sites1, alert_detector := er.2 })

/-! Concrete fixtures used by witnesses and counterexamples. -/

/-- A check result with a latency value. -/
def exampleResultUp : CheckResult :=
  { timestamp := 0, status := Status.Up, response_time_ms := some 10
    http_status := some 200, error_message := none }

/-- A failed check result: no latency value, per `CheckResult::new_down`. -/
def exampleResultDown1 : CheckResult :=
  { timestamp := 10, status := Status.Down, response_time_ms := none
    http_status := none, error_message := some "connection refused" }

/-- A second failed check result. -/
def exampleResultDown2 : CheckResult :=
  { timestamp := 20, status := Status.Down, response_time_ms := none
    http_status := none, error_message := some "connection refused" }

/-- A site with no overrides. -/
def exampleSite : SiteConfig :=
  { name := "a", url := "http://a.example", expected_status := 200
    check_interval := none, alerts := none }

/-- A site whose interval override is below the global default. -/
def exampleSiteFast : SiteConfig :=
  { name := "fast", url := "http://fast.example", expected_status := 200
    check_interval := some 1, alerts := none }

/-- A configuration with one site and the `Default` alert settings. -/
def exampleConfig : Config :=
  { settings :=
      { refresh_interval := 5, history_size := 100, request_timeout := 3
        alerts := AlertSettings.default_value }
    sites := [exampleSite] }

/-- Same as `exampleConfig` but with `down_to_warn` also enabled, the
configuration named by the cooldown claim. -/
def exampleConfigDownToWarn : Config :=
  { settings :=
      { refresh_interval := 5, history_size := 100, request_timeout := 3
        alerts :=
          { AlertSettings.default_value with
            transitions :=
              { TransitionSettings.default_value with down_to_warn := true } } }
    sites := [exampleSite] }

/-- A configuration with alerts globally disabled. -/
def exampleConfigDisabled : Config :=
  { settings :=
      { refresh_interval := 5, history_size := 100, request_timeout := 3
        alerts := { AlertSettings.default_value with enabled := false } }
    sites := [exampleSite] }

/-- The freshly initialized per-site state of `AlertDetector::new`. -/
def exampleFreshState : SiteAlertState :=
  { consecutive_failures := 0, last_alert_time := none
    last_alert_status := none, stable_status := none }

/-- A fresh detector over `exampleConfig`. -/
def exampleDetector : AlertDetector :=
  AlertDetector.new exampleConfig

/-- A fresh detector over `exampleConfigDownToWarn`. -/
def exampleDetectorDTW : AlertDetector :=
  AlertDetector.new exampleConfigDownToWarn

/-- A fresh detector over `exampleConfigDisabled`. -/
def exampleDetectorDisabled : AlertDetector :=
  AlertDetector.new exampleConfigDisabled

/-- The detector state reached by feeding `Up@0, Down@10, Down@20` to
`exampleDetectorDTW`; the third sample raises the accepted `UpToDown`
alert, starting the cooldown window at time 20. -/
def c1PostAlertDetector : AlertDetector :=
  (((exampleDetectorDTW.evaluate 0 "a" none Status.Up).2.evaluate 10 "a"
      (some Status.Up) Status.Down).2.evaluate 20 "a"
      (some Status.Down) Status.Down).2

/-- A two-sample history whose newest sample carries no latency value. -/
def exampleHistoryMixed : SiteHistory :=
  { results := [exampleResultUp, exampleResultDown1], max_size := 10 }

/-- A fresh app over `exampleConfig`. -/
def exampleApp : App :=
  App.new exampleConfig

/-- The app state after feeding `Up@0` then `Down@10` for site `a`. -/
def c9AppAfterTwo : App :=
  ((exampleApp.handle_check_result 0 "a" exampleResultUp).2.handle_check_result
    10 "a" exampleResultDown1).2

/-- The result of the third step `Down@20`, which emits the alert. -/
def c9Step3 : Option Alert × App :=
  c9AppAfterTwo.handle_check_result 20 "a" exampleResultDown2

/-- The alert that third step emits. -/
def c9Alert : Alert :=
  Alert.new 20 "a" StatusTransition.UpToDown Status.Down Status.Down

/-- The per-site core of `AlertDetector::evaluate`: what one call does once
the site's config entry and mutable state have been looked up and the
effective policy found enabled.  `evaluate_eq_evalStep` proves it equal to
`AlertDetector.evaluate` under exactly those hypotheses. -/
def evalStep (global_alerts : AlertSettings) (site_alerts : Option SiteAlertSettings)
    (state : SiteAlertState) (now : Int) (previous_status : Option Status)
    (current_status : Status) : Option StatusTransition × SiteAlertState :=
  let state1 :=
    if current_status = Status.Down ∨ current_status = Status.Warning then
      { state with
        stable_status :=
          if state.consecutive_failures = 0 then previous_status
          else state.stable_status
        consecutive_failures := state.consecutive_failures + 1 }
    else
      { state with
        consecutive_failures := 0
        stable_status := some current_status }
  let threshold :=
    (site_alerts.bind (fun a => a.consecutive_failures)).getD
      global_alerts.consecutive_failures
  if (current_status = Status.Down ∨ current_status = Status.Warning) ∧
      state1.consecutive_failures < threshold then (none, state1)
  else
    let cooldown_seconds :=
      (site_alerts.bind (fun a => a.cooldown_seconds)).getD
        global_alerts.cooldown_seconds
    let suppressed : Bool :=
      match state1.last_alert_time, state1.last_alert_status with
      | some last_time, some last_status =>
        decide (now - last_time < (cooldown_seconds : Int)) &&
          decide (last_status = current_status)
      | _, _ => false
    if suppressed then (none, state1)
    else
      let from_status :=
        if current_status = Status.Up then previous_status
        else state1.stable_status
      match from_status.bind
          (fun prev => StatusTransition.from_statuses prev current_status) with
      | none => (none, state1)
      | some transition =>
        let should_alert :=
          match transition with
          | StatusTransition.UpToDown => global_alerts.transitions.up_to_down
          | StatusTransition.UpToWarn => global_alerts.transitions.up_to_warn
          | StatusTransition.DownToUp => global_alerts.transitions.down_to_up
          | StatusTransition.WarnToDown => global_alerts.transitions.warn_to_down
          | StatusTransition.WarnToUp => global_alerts.transitions.warn_to_up
          | StatusTransition.DownToWarn => global_alerts.transitions.down_to_warn
        if should_alert then
          (some transition,
           { state1 with
             last_alert_time := some now
             last_alert_status := some current_status })
        else (none, state1)

/-! Helper lemmas. -/

theorem assocLookup_cons {α : Type} (p : String × α) (t : List (String × α)) (k : String) :
    assocLookup (p :: t) k = if p.1 == k then some p.2 else assocLookup t k := by
  cases hbe : p.1 == k with
  | true => simp [assocLookup, List.find?_cons_of_pos, hbe]
  | false => simp [assocLookup, List.find?_cons_of_neg, hbe]

theorem assocUpdate_cons {α : Type} (p : String × α) (t : List (String × α)) (k : String) (v : α) :
    assocUpdate (p :: t) k v = (if p.1 == k then (k, v) else p) :: assocUpdate t k v := rfl

theorem assocLookup_update_self {α : Type} (l : List (String × α)) (k : String) (v : α)
    (h : (assocLookup l k).isSome) :
    assocLookup (assocUpdate l k v) k = some v := by
  induction l with
  | nil => simp [assocLookup] at h
  | cons p t ih =>
    rw [assocUpdate_cons]
    cases hbe : p.1 == k with
    | true => simp [assocLookup_cons]
    | false =>
      rw [assocLookup_cons, hbe] at h
      simp only [Bool.false_eq_true, if_false] at h
      simp [assocLookup_cons, hbe]
      exact ih h

theorem assocLookup_update_ne {α : Type} (l : List (String × α)) (k k' : String) (v : α)
    (h : k' ≠ k) :
    assocLookup (assocUpdate l k v) k' = assocLookup l k' := by
  induction l with
  | nil => rfl
  | cons p t ih =>
    rw [assocUpdate_cons]
    cases hbe : p.1 == k with
    | true =>
      have hp : p.1 = k := by simpa using hbe
      have hk : (k == k') = false := by simp [Ne.symm h]
      have hk2 : (p.1 == k') = false := by simp [hp, Ne.symm h]
      simp [assocLookup_cons, hk, hk2, ih]
    | false =>
      cases hq : p.1 == k' with
      | true => simp [assocLookup_cons, hbe, hq]
      | false => simp [assocLookup_cons, hbe, hq, ih]

theorem evaluate_eq_evalStep (d : AlertDetector) (now : Int) (name : String)
    (prev : Option Status) (cur : Status) (sc : SiteConfig) (st : SiteAlertState)
    (hfind : d.config.sites.find? (fun s => s.name == name) = some sc)
    (hen : (sc.alerts.bind (fun a => a.enabled)).getD d.config.settings.alerts.enabled = true)
    (hst : assocLookup d.site_states name = some st) :
    d.evaluate now name prev cur =
      ((evalStep d.config.settings.alerts sc.alerts st now prev cur).1,
       { d with site_states := (assocUpdate d.site_states name
          (evalStep d.config.settings.alerts sc.alerts st now prev cur).2) }) := by
  unfold AlertDetector.evaluate evalStep
  rw [hfind, hst]
  simp only [hen]
  rw [if_neg (by decide : ¬ (true = false))]
  repeat' split
  all_goals rfl

theorem evaluate_fst (d : AlertDetector) (now : Int) (name : String)
    (prev : Option Status) (cur : Status) (sc : SiteConfig) (st : SiteAlertState)
    (hfind : d.config.sites.find? (fun s => s.name == name) = some sc)
    (hen : (sc.alerts.bind (fun a => a.enabled)).getD d.config.settings.alerts.enabled = true)
    (hst : assocLookup d.site_states name = some st) :
    (d.evaluate now name prev cur).1 =
      (evalStep d.config.settings.alerts sc.alerts st now prev cur).1 := by
  rw [evaluate_eq_evalStep d now name prev cur sc st hfind hen hst]

theorem evaluate_snd (d : AlertDetector) (now : Int) (name : String)
    (prev : Option Status) (cur : Status) (sc : SiteConfig) (st : SiteAlertState)
    (hfind : d.config.sites.find? (fun s => s.name == name) = some sc)
    (hen : (sc.alerts.bind (fun a => a.enabled)).getD d.config.settings.alerts.enabled = true)
    (hst : assocLookup d.site_states name = some st) :
    (d.evaluate now name prev cur).2 =
      { d with site_states := (assocUpdate d.site_states name
          (evalStep d.config.settings.alerts sc.alerts st now prev cur).2) } := by
  rw [evaluate_eq_evalStep d now name prev cur sc st hfind hen hst]

theorem evalStep_consecutive (g : AlertSettings) (sa : Option SiteAlertSettings)
    (st : SiteAlertState) (now : Int) (prev : Option Status) (cur : Status) :
    ((evalStep g sa st now prev cur).2).consecutive_failures =
      if cur = Status.Down ∨ cur = Status.Warning then st.consecutive_failures + 1 else 0 := by
  simp only [evalStep]
  repeat' split
  all_goals rfl

theorem evalStep_none_frame (g : AlertSettings) (sa : Option SiteAlertSettings)
    (st : SiteAlertState) (now : Int) (prev : Option Status) (cur : Status) :
    (evalStep g sa st now prev cur).1 = none →
    ((evalStep g sa st now prev cur).2).last_alert_time = st.last_alert_time ∧
      ((evalStep g sa st now prev cur).2).last_alert_status = st.last_alert_status := by
  simp only [evalStep]
  repeat' split
  all_goals simp

theorem evalStep_fresh_none (g : AlertSettings) (sa : Option SiteAlertSettings)
    (st : SiteAlertState) (now : Int) (cur : Status)
    (h0 : st.consecutive_failures = 0) :
    (evalStep g sa st now none cur).1 = none := by
  cases cur <;> simp only [evalStep, h0] <;> repeat' split <;>
    simp_all [StatusTransition.from_statuses]

theorem filterMap_reverse_eq {α β : Type} (f : α → Option β) (l : List α) :
    l.reverse.filterMap f = (l.filterMap f).reverse := by
  induction l with
  | nil => rfl
  | cons a t ih =>
    simp only [List.reverse_cons, List.filterMap_append, List.filterMap_cons, ih]
    cases f a <;> simp

end Monitor

namespace Monitor

/-- Claim C2 counterexample: a site with a 1-second override under a
30-second default waits 1 second, not `max(1, 30) = 30`. -/
theorem c2_counterexample :
    checkerWaitInterval exampleSiteFast 30 = 1 ∧
    specWaitInterval exampleSiteFast 30 = 30 ∧
    checkerWaitInterval exampleSiteFast 30 ≠ specWaitInterval exampleSiteFast 30 := by
  decide

/-- Claim C2 (amended): the scheduler's wait equals the endpoint's
configured override when present and the global default otherwise; this
agrees with the spec's `max(endpoint.interval, default_interval)` exactly
when no override is smaller than the default. -/
theorem c2_wait_interval_amended (site : SiteConfig) (default_interval : Nat) :
    checkerWaitInterval site default_interval = specWaitInterval site default_interval ↔
      (∀ i, site.check_interval = some i → default_interval ≤ i) := by
  cases h : site.check_interval with
  | none => simp [checkerWaitInterval, specWaitInterval, h]
  | some i =>
    simp only [checkerWaitInterval, specWaitInterval, h, Option.getD_some]
    constructor
    · intro he j hj
      cases hj
      omega
    · intro hle
      have := hle i rfl
      omega

/-- Claim C2 amended, instantiated: a site with no override waits exactly
the spec's wait. -/
theorem c2_wait_interval_amended_witness :
    checkerWaitInterval exampleSite 30 = specWaitInterval exampleSite 30 :=
  (c2_wait_interval_amended exampleSite 30).mpr (by intro i h; simp [exampleSite] at h)

/-- Claim C5 counterexample: with `max_size = 0` one insertion leaves one
stored element, breaking `length ≤ max_size`. -/
theorem c5_counterexample :
    ¬ (((SiteHistory.new 0).add_result exampleResultUp).len ≤
        (SiteHistory.new 0).max_size) := by
  decide

/-- Claim C5 (amended): for every capacity `max_size ≥ 1`, both
`SiteHistory` and `AlertHistory` keep `length ≤ max_size`; an insertion
below capacity appends, and an insertion at capacity drops exactly the
oldest element and appends, so stored order is insertion order.  (With
`max_size = 0` a store instead stabilizes at one element.) -/
theorem c5_fifo_amended (h : SiteHistory) (r : CheckResult) (ah : AlertHistory) (a : Alert)
    (hc1 : 1 ≤ h.max_size) (hl1 : h.results.length ≤ h.max_size)
    (hc2 : 1 ≤ ah.max_size) (hl2 : ah.alerts.length ≤ ah.max_size) :
    ((h.add_result r).len ≤ h.max_size ∧
      (h.results.length < h.max_size → (h.add_result r).results = h.results ++ [r]) ∧
      (h.results.length = h.max_size → (h.add_result r).results = h.results.tail ++ [r])) ∧
    ((ah.add_alert a).len ≤ ah.max_size ∧
      (ah.alerts.length < ah.max_size → (ah.add_alert a).alerts = ah.alerts ++ [a]) ∧
      (ah.alerts.length = ah.max_size → (ah.add_alert a).alerts = ah.alerts.tail ++ [a])) := by
  constructor
  · refine ⟨?_, ?_, ?_⟩
    · simp only [SiteHistory.add_result, SiteHistory.len]
      split
      · simp [List.length_tail]
        omega
      · simp
        omega
    · intro hlt
      simp only [SiteHistory.add_result]
      rw [if_neg (by omega)]
    · intro heq
      simp only [SiteHistory.add_result]
      rw [if_pos (by omega)]
  · refine ⟨?_, ?_, ?_⟩
    · simp only [AlertHistory.add_alert, AlertHistory.len]
      split
      · simp [List.length_tail]
        omega
      · simp
        omega
    · intro hlt
      simp only [AlertHistory.add_alert]
      rw [if_neg (by omega)]
    · intro heq
      simp only [AlertHistory.add_alert]
      rw [if_pos (by omega)]

/-- Claim C5 amended, instantiated at capacity 3 with three stored
samples. -/
theorem c5_fifo_amended_witness :
    (({ results := [exampleResultUp, exampleResultDown1, exampleResultDown2],
        max_size := 3 } : SiteHistory).add_result exampleResultUp).len ≤ 3 ∧
    (({ results := [exampleResultUp, exampleResultDown1, exampleResultDown2],
        max_size := 3 } : SiteHistory).add_result exampleResultUp).results =
      [exampleResultDown1, exampleResultDown2, exampleResultUp] := by
  have h := c5_fifo_amended
    { results := [exampleResultUp, exampleResultDown1, exampleResultDown2], max_size := 3 }
    exampleResultUp (AlertHistory.new 1) c9Alert
    (by decide) (by decide) (by decide) (by decide)
  exact ⟨h.1.1, by rw [h.1.2.2 (by decide)]; rfl⟩

/-- Claim C6 counterexample: the newest sample carries no latency, so
`recent_response_times 1` is empty even though the history holds one
latency-carrying sample; the last latency value, 10, is not returned. -/
theorem c6_counterexample :
    exampleHistoryMixed.recent_response_times 1 = [] ∧
    (exampleHistoryMixed.results.filterMap (fun r => r.response_time_ms)).length = 1 := by
  decide

/-- Claim C6 (amended): `recent_response_times limit` returns the latency
values carried by the last `limit` stored samples, in chronological order
(a pure read); samples without a latency value inside that window are
skipped, so fewer than `limit` values can come back even when the whole
history holds `limit` latency-carrying samples. -/
theorem c6_recent_amended (h : SiteHistory) (limit : Nat) :
    h.recent_response_times limit =
      (h.results.drop (h.results.length - limit)).filterMap
        (fun r => r.response_time_ms) := by
  unfold SiteHistory.recent_response_times
  have htake : h.results.reverse.take limit = (h.results.rtake limit).reverse := by
    rw [List.rtake_eq_reverse_take_reverse, List.reverse_reverse]
  rw [htake, filterMap_reverse_eq, List.reverse_reverse, List.rtake]

/-- Claim C7: `evaluate` is total, and an unknown site name or a disabled
effective policy returns no-alert with the detector state untouched. -/
theorem c7_noop_unknown_or_disabled (d : AlertDetector) (now : Int) (name : String)
    (prev : Option Status) (cur : Status) :
    (d.config.sites.find? (fun s => s.name == name) = none →
      d.evaluate now name prev cur = (none, d)) ∧
    (∀ sc, d.config.sites.find? (fun s => s.name == name) = some sc →
      (sc.alerts.bind (fun a => a.enabled)).getD d.config.settings.alerts.enabled = false →
      d.evaluate now name prev cur = (none, d)) := by
  constructor
  · intro h
    simp [AlertDetector.evaluate, h]
  · intro sc h he
    simp [AlertDetector.evaluate, h, he]

/-- Claim C7, instantiated: an unknown name and a disabled config are
no-ops on concrete detectors. -/
theorem c7_noop_witness :
    exampleDetector.evaluate 0 "unknown" none Status.Up = (none, exampleDetector) ∧
    exampleDetectorDisabled.evaluate 0 "a" none Status.Down =
      (none, exampleDetectorDisabled) :=
  ⟨(c7_noop_unknown_or_disabled exampleDetector 0 "unknown" none Status.Up).1 (by decide),
   (c7_noop_unknown_or_disabled exampleDetectorDisabled 0 "a" none Status.Down).2
     exampleSite (by decide) (by decide)⟩

end Monitor

namespace Monitor

/-- Claim C4: after an `evaluate` call on a known, enabled site, the
stored `consecutive_failures` is zero exactly when the sample was `Up`. -/
theorem c4_consecutive_zero_iff_up (d : AlertDetector) (now : Int) (name : String)
    (prev : Option Status) (cur : Status) (sc : SiteConfig) (st : SiteAlertState)
    (hfind : d.config.sites.find? (fun s => s.name == name) = some sc)
    (hen : (sc.alerts.bind (fun a => a.enabled)).getD d.config.settings.alerts.enabled = true)
    (hst : assocLookup d.site_states name = some st) :
    ∃ st2, assocLookup ((d.evaluate now name prev cur).2).site_states name = some st2 ∧
      (st2.consecutive_failures = 0 ↔ cur = Status.Up) := by
  rw [evaluate_snd d now name prev cur sc st hfind hen hst]
  refine ⟨(evalStep d.config.settings.alerts sc.alerts st now prev cur).2,
    assocLookup_update_self _ _ _ (by simp [hst]), ?_⟩
  rw [evalStep_consecutive]
  cases cur <;> simp

/-- Claim C4, instantiated on a fresh detector and a `Down` sample. -/
theorem c4_consecutive_witness :
    ∃ st2, assocLookup ((exampleDetector.evaluate 0 "a" none Status.Down).2).site_states
        "a" = some st2 ∧
      (st2.consecutive_failures = 0 ↔ Status.Down = Status.Up) :=
  c4_consecutive_zero_iff_up exampleDetector 0 "a" none Status.Down exampleSite
    exampleFreshState (by decide) (by decide) (by decide)

/-- Claim C8: whenever `evaluate` returns no alert, every site's
`last_alert_time` and `last_alert_status` are exactly what they were, so a
suppressed sample never extends a cooldown window. -/
theorem c8_no_alert_frame (d : AlertDetector) (now : Int) (name : String)
    (prev : Option Status) (cur : Status)
    (hnone : (d.evaluate now name prev cur).1 = none) (k : String) :
    ((assocLookup ((d.evaluate now name prev cur).2).site_states k).map
        (fun s => (s.last_alert_time, s.last_alert_status))) =
      ((assocLookup d.site_states k).map
        (fun s => (s.last_alert_time, s.last_alert_status))) := by
  cases hf : d.config.sites.find? (fun s => s.name == name) with
  | none => simp [AlertDetector.evaluate, hf]
  | some sc =>
    cases he : (sc.alerts.bind (fun a => a.enabled)).getD d.config.settings.alerts.enabled with
    | false => simp [AlertDetector.evaluate, hf, he]
    | true =>
      cases hl : assocLookup d.site_states name with
      | none => simp [AlertDetector.evaluate, hf, he, hl]
      | some st =>
        have hfst : (evalStep d.config.settings.alerts sc.alerts st now prev cur).1 = none := by
          rw [← evaluate_fst d now name prev cur sc st hf he hl]
          exact hnone
        have hframe := evalStep_none_frame d.config.settings.alerts sc.alerts st
          now prev cur hfst
        rw [evaluate_snd d now name prev cur sc st hf he hl]
        by_cases hk : k = name
        · subst hk
          rw [assocLookup_update_self _ _ _ (by simp [hl]), hl]
          simp [hframe.1, hframe.2]
        · rw [assocLookup_update_ne _ _ _ _ hk]

/-- Claim C8, instantiated: the first `Down` on a fresh detector is below
threshold, returns no alert, and leaves the cooldown fields empty. -/
theorem c8_no_alert_frame_witness :
    ((assocLookup ((exampleDetector.evaluate 0 "a" none Status.Down).2).site_states "a").map
        (fun s => (s.last_alert_time, s.last_alert_status))) =
      ((assocLookup exampleDetector.site_states "a").map
        (fun s => (s.last_alert_time, s.last_alert_status))) :=
  c8_no_alert_frame exampleDetector 0 "a" none Status.Down (by decide) "a"

/-- Claim C10: with no previous status (the first sample ever observed,
so the stored failure streak is zero wherever the site is known),
`evaluate` returns no alert whatever the sample's status. -/
theorem c10_first_sample_no_alert (d : AlertDetector) (now : Int) (name : String)
    (cur : Status)
    (hfresh : ∀ st, assocLookup d.site_states name = some st →
      st.consecutive_failures = 0) :
    (d.evaluate now name none cur).1 = none := by
  cases hf : d.config.sites.find? (fun s => s.name == name) with
  | none => simp [AlertDetector.evaluate, hf]
  | some sc =>
    cases he : (sc.alerts.bind (fun a => a.enabled)).getD d.config.settings.alerts.enabled with
    | false => simp [AlertDetector.evaluate, hf, he]
    | true =>
      cases hl : assocLookup d.site_states name with
      | none => simp [AlertDetector.evaluate, hf, he, hl]
      | some st =>
        rw [evaluate_fst d now name none cur sc st hf he hl]
        exact evalStep_fresh_none _ _ _ _ _ (hfresh st hl)

/-- Claim C10, instantiated: a first `Down` sample on a fresh detector
yields no alert. -/
theorem c10_first_sample_witness :
    (exampleDetector.evaluate 0 "a" none Status.Down).1 = none :=
  c10_first_sample_no_alert exampleDetector 0 "a" Status.Down
    (fun st h => by
      have h2 : some exampleFreshState = some st := h
      cases h2
      rfl)

end Monitor

namespace Monitor

theorem evaluate_of_state (d : AlertDetector) (now : Int) (name : String)
    (prev : Option Status) (cur : Status) (sc : SiteConfig) (st : SiteAlertState)
    (r : Option StatusTransition) (v : SiteAlertState)
    (hfind : d.config.sites.find? (fun s => s.name == name) = some sc)
    (hen : (sc.alerts.bind (fun a => a.enabled)).getD d.config.settings.alerts.enabled = true)
    (hst : assocLookup d.site_states name = some st)
    (hstep : evalStep d.config.settings.alerts sc.alerts st now prev cur = (r, v)) :
    d.evaluate now name prev cur =
      (r, { d with site_states := (assocUpdate d.site_states name v) }) := by
  rw [evaluate_eq_evalStep d now name prev cur sc st hfind hen hst, hstep]

theorem c3_step1 (g : AlertSettings) (sa : Option SiteAlertSettings) (t : Int) :
    evalStep g sa exampleFreshState t none Status.Up =
      (none, ⟨0, none, none, some Status.Up⟩) := rfl

theorem c3_step2 (g : AlertSettings) (sa : Option SiteAlertSettings) (t : Int)
    (hth : (sa.bind (fun a => a.consecutive_failures)).getD g.consecutive_failures = 2) :
    evalStep g sa ⟨0, none, none, some Status.Up⟩ t (some Status.Up) Status.Down =
      (none, ⟨1, none, none, some Status.Up⟩) := by
  simp [evalStep, hth]

theorem c3_step3 (g : AlertSettings) (sa : Option SiteAlertSettings) (t : Int)
    (hth : (sa.bind (fun a => a.consecutive_failures)).getD g.consecutive_failures = 2)
    (hflag : g.transitions.up_to_down = true) :
    evalStep g sa ⟨1, none, none, some Status.Up⟩ t (some Status.Down) Status.Down =
      (some StatusTransition.UpToDown,
       ⟨2, some t, some Status.Down, some Status.Up⟩) := by
  simp [evalStep, hth, hflag, StatusTransition.from_statuses]

/-- Claim C3: on a known, enabled site with resolved threshold 2,
`up_to_down` enabled and fresh state, the sequence `Up, Down, Down` yields
no alert on the first two samples and exactly the `UpToDown` alert on the
second `Down`. -/
theorem c3_up_down_down_single_alert (d : AlertDetector) (t1 t2 t3 : Int)
    (name : String) (sc : SiteConfig)
    (hfind : d.config.sites.find? (fun s => s.name == name) = some sc)
    (hen : (sc.alerts.bind (fun a => a.enabled)).getD d.config.settings.alerts.enabled = true)
    (hth : (sc.alerts.bind (fun a => a.consecutive_failures)).getD
        d.config.settings.alerts.consecutive_failures = 2)
    (hflag : d.config.settings.alerts.transitions.up_to_down = true)
    (hst : assocLookup d.site_states name = some exampleFreshState) :
    (d.evaluate t1 name none Status.Up).1 = none ∧
    ((d.evaluate t1 name none Status.Up).2.evaluate t2 name
        (some Status.Up) Status.Down).1 = none ∧
    (((d.evaluate t1 name none Status.Up).2.evaluate t2 name
        (some Status.Up) Status.Down).2.evaluate t3 name
        (some Status.Down) Status.Down).1 = some StatusTransition.UpToDown := by
  have hsome : (assocLookup d.site_states name).isSome := by simp [hst]
  have h1 := evaluate_of_state d t1 name none Status.Up sc exampleFreshState
    none ⟨0, none, none, some Status.Up⟩ hfind hen hst (c3_step1 _ _ t1)
  have hst1 : assocLookup
      (assocUpdate d.site_states name ⟨0, none, none, some Status.Up⟩) name =
      some ⟨0, none, none, some Status.Up⟩ :=
    assocLookup_update_self _ _ _ hsome
  have h2 := evaluate_of_state
    ({ d with site_states := (assocUpdate d.site_states name
        ⟨0, none, none, some Status.Up⟩) }) t2 name (some Status.Up) Status.Down
    sc ⟨0, none, none, some Status.Up⟩ none ⟨1, none, none, some Status.Up⟩
    hfind hen hst1 (c3_step2 _ _ t2 hth)
  have hsome1 : (assocLookup
      (assocUpdate d.site_states name ⟨0, none, none, some Status.Up⟩) name).isSome := by
    simp [hst1]
  have hst2 : assocLookup
      (assocUpdate (assocUpdate d.site_states name ⟨0, none, none, some Status.Up⟩)
        name ⟨1, none, none, some Status.Up⟩) name =
      some ⟨1, none, none, some Status.Up⟩ :=
    assocLookup_update_self _ _ _ hsome1
  have h3 := evaluate_of_state
    ({ d with site_states := (assocUpdate
        (assocUpdate d.site_states name ⟨0, none, none, some Status.Up⟩)
        name ⟨1, none, none, some Status.Up⟩) }) t3 name (some Status.Down)
    Status.Down sc ⟨1, none, none, some Status.Up⟩
    (some StatusTransition.UpToDown) ⟨2, some t3, some Status.Down, some Status.Up⟩
    hfind hen hst2 (c3_step3 _ _ t3 hth hflag)
  refine ⟨by rw [h1], ?_, ?_⟩
  · simp only [h1]
    simp only [h2]
  · simp only [h1]
    simp only [h2]
    simp only [h3]

end Monitor

namespace Monitor

/-- Claim C3 instantiated on the fresh detector over the default config. -/
theorem c3_up_down_down_witness :
    (exampleDetector.evaluate 0 "a" none Status.Up).1 = none ∧
    ((exampleDetector.evaluate 0 "a" none Status.Up).2.evaluate 10 "a"
        (some Status.Up) Status.Down).1 = none ∧
    (((exampleDetector.evaluate 0 "a" none Status.Up).2.evaluate 10 "a"
        (some Status.Up) Status.Down).2.evaluate 20 "a"
        (some Status.Down) Status.Down).1 = some StatusTransition.UpToDown :=
  c3_up_down_down_single_alert exampleDetector 0 10 20 "a" exampleSite
    (by decide) (by decide) (by decide) (by decide) (by decide)

theorem c1_step_down (g : AlertSettings) (sa : Option SiteAlertSettings)
    (now1 t0 : Int) (n : Nat) (hn : n ≠ 0)
    (hth : (sa.bind (fun a => a.consecutive_failures)).getD g.consecutive_failures ≤ n)
    (hcool : now1 - t0 <
      (((sa.bind (fun a => a.cooldown_seconds)).getD g.cooldown_seconds : Nat) : Int)) :
    evalStep g sa ⟨n, some t0, some Status.Down, some Status.Up⟩ now1
        (some Status.Down) Status.Down =
      (none, ⟨n + 1, some t0, some Status.Down, some Status.Up⟩) := by
  simp only [evalStep, hn]
  rw [if_neg (by simp; omega)]
  simp [hcool]

theorem c1_step_warn (g : AlertSettings) (sa : Option SiteAlertSettings)
    (now2 t0 : Int) (n : Nat) (hn : n ≠ 0)
    (hth : (sa.bind (fun a => a.consecutive_failures)).getD g.consecutive_failures ≤ n) :
    evalStep g sa ⟨n, some t0, some Status.Down, some Status.Up⟩ now2
        (some Status.Down) Status.Warning =
      (if g.transitions.up_to_warn then
        (some StatusTransition.UpToWarn,
         ⟨n + 1, some now2, some Status.Warning, some Status.Up⟩)
       else (none, ⟨n + 1, some t0, some Status.Down, some Status.Up⟩)) := by
  simp only [evalStep, hn]
  rw [if_neg (by simp; omega)]
  simp [StatusTransition.from_statuses]

end Monitor

namespace Monitor

/-- Claim C1 counterexample: over `exampleConfigDownToWarn` (cooldown 300,
`up_to_down = true`, `down_to_warn = true`, `up_to_warn` left at its
default `false`), after the accepted `UpToDown` alert at time 20, the
`Down` at 30 is suppressed — and the `Warning` at 40, still inside the
window, is also suppressed, though the claim says it alerts. -/
theorem c1_counterexample :
    ((((exampleDetectorDTW.evaluate 0 "a" none Status.Up).2.evaluate 10 "a"
        (some Status.Up) Status.Down).2.evaluate 20 "a"
        (some Status.Down) Status.Down).1 = some StatusTransition.UpToDown) ∧
    ((c1PostAlertDetector.evaluate 30 "a" (some Status.Down) Status.Down).1 = none) ∧
    (((c1PostAlertDetector.evaluate 30 "a" (some Status.Down) Status.Down).2.evaluate
        40 "a" (some Status.Down) Status.Warning).1 = none) := by
  decide

/-- Claim C1 (amended): on a known, enabled site sitting in the state an
accepted `UpToDown` alert leaves behind (streak of `n ≥ threshold` `Down`
samples over a stable `Up` baseline, cooldown window open since `t0`),
another `Down` inside the window yields no alert, and a `Warning` inside
the window passes the cooldown gate but alerts only if `up_to_warn` is
enabled — the transition is computed from the stable status `Up`, giving
`UpToWarn`, so the `down_to_warn` flag is irrelevant. -/
theorem c1_cooldown_window_amended (d : AlertDetector) (now1 now2 : Int)
    (name : String) (sc : SiteConfig) (n : Nat) (t0 : Int)
    (hfind : d.config.sites.find? (fun s => s.name == name) = some sc)
    (hen : (sc.alerts.bind (fun a => a.enabled)).getD d.config.settings.alerts.enabled = true)
    (hst : assocLookup d.site_states name =
      some ⟨n, some t0, some Status.Down, some Status.Up⟩)
    (hn : n ≠ 0)
    (hth : (sc.alerts.bind (fun a => a.consecutive_failures)).getD
        d.config.settings.alerts.consecutive_failures ≤ n)
    (hcool1 : now1 - t0 <
      (((sc.alerts.bind (fun a => a.cooldown_seconds)).getD
        d.config.settings.alerts.cooldown_seconds : Nat) : Int))
    (hcool2 : now2 - t0 <
      (((sc.alerts.bind (fun a => a.cooldown_seconds)).getD
        d.config.settings.alerts.cooldown_seconds : Nat) : Int)) :
    (d.evaluate now1 name (some Status.Down) Status.Down).1 = none ∧
    ((d.evaluate now1 name (some Status.Down) Status.Down).2.evaluate now2 name
        (some Status.Down) Status.Warning).1 =
      (if d.config.settings.alerts.transitions.up_to_warn then
        some StatusTransition.UpToWarn else none) := by
  have hsome : (assocLookup d.site_states name).isSome := by simp [hst]
  have h1 := evaluate_of_state d now1 name (some Status.Down) Status.Down sc
    ⟨n, some t0, some Status.Down, some Status.Up⟩ none
    ⟨n + 1, some t0, some Status.Down, some Status.Up⟩ hfind hen hst
    (c1_step_down _ _ now1 t0 n hn hth hcool1)
  have hst1 : assocLookup
      (assocUpdate d.site_states name
        ⟨n + 1, some t0, some Status.Down, some Status.Up⟩) name =
      some ⟨n + 1, some t0, some Status.Down, some Status.Up⟩ :=
    assocLookup_update_self _ _ _ hsome
  refine ⟨by rw [h1], ?_⟩
  cases hflag : d.config.settings.alerts.transitions.up_to_warn with
  | true =>
    have h2 := evaluate_of_state
      ({ d with site_states := (assocUpdate d.site_states name
          ⟨n + 1, some t0, some Status.Down, some Status.Up⟩) }) now2 name
      (some Status.Down) Status.Warning sc
      ⟨n + 1, some t0, some Status.Down, some Status.Up⟩
      (some StatusTransition.UpToWarn)
      ⟨n + 2, some now2, some Status.Warning, some Status.Up⟩
      hfind hen hst1
      (by rw [c1_step_warn _ _ now2 t0 (n + 1) (Nat.succ_ne_zero n) (by exact le_trans hth (Nat.le_succ n)), if_pos hflag])
    simp only [h1]
    simp only [h2]
    simp [hflag]
  | false =>
    have h2 := evaluate_of_state
      ({ d with site_states := (assocUpdate d.site_states name
          ⟨n + 1, some t0, some Status.Down, some Status.Up⟩) }) now2 name
      (some Status.Down) Status.Warning sc
      ⟨n + 1, some t0, some Status.Down, some Status.Up⟩
      none ⟨n + 2, some t0, some Status.Down, some Status.Up⟩
      hfind hen hst1
      (by rw [c1_step_warn _ _ now2 t0 (n + 1) (Nat.succ_ne_zero n) (by exact le_trans hth (Nat.le_succ n))]
          rw [if_neg (by simp [hflag])])
    simp only [h1]
    simp only [h2]
    simp [hflag]

/-- Claim C1 amended, instantiated just after the accepted alert of
`c1PostAlertDetector` (streak length 2, window opened at 20). -/
theorem c1_cooldown_window_amended_witness :
    (c1PostAlertDetector.evaluate 30 "a" (some Status.Down) Status.Down).1 = none ∧
    ((c1PostAlertDetector.evaluate 30 "a" (some Status.Down) Status.Down).2.evaluate
        40 "a" (some Status.Down) Status.Warning).1 = none := by
  have h := c1_cooldown_window_amended c1PostAlertDetector 30 40 "a" exampleSite
    2 20 (by decide) (by decide) (by decide) (by decide) (by decide)
    (by decide) (by decide)
  exact ⟨h.1, h.2⟩

end Monitor

namespace Monitor

/-- Claim C9: an alert emitted by `handle_check_result` carries as
`previous_status` the status of the immediately preceding history sample,
which can differ from the transition's `from` side: `Up, Down, Down` with
threshold 2 emits `UpToDown` with `previous_status = Down`. -/
theorem c9_alert_previous_status :
    (∀ (app : App) (now : Int) (name : String) (result : CheckResult)
        (rprev : CheckResult) (alert : Alert),
      ((assocLookup app.sites name).bind (fun h => h.latest)) = some rprev →
      (app.handle_check_result now name result).1 = some alert →
      alert.previous_status = rprev.status) ∧
    ((c9Step3.1).map (fun a => (a.transition, a.previous_status)) =
      some (StatusTransition.UpToDown, Status.Down)) := by
  constructor
  · intro app now name result rprev alert hprev halert
    unfold App.handle_check_result at halert
    simp only [hprev, Option.map_some'] at halert
    cases hev : (app.alert_detector.evaluate now name (some rprev.status) result.status).1 with
    | none => rw [hev] at halert; simp at halert
    | some tr =>
      rw [hev] at halert
      simp at halert
      rw [← halert]
      rfl
  · decide

/-- Claim C9, instantiated at the third step of the concrete run. -/
theorem c9_alert_previous_status_witness :
    c9Alert.previous_status = Status.Down :=
  c9_alert_previous_status.1 c9AppAfterTwo 20 "a" exampleResultDown2
    exampleResultDown1 c9Alert (by decide) (by decide)

end Monitor
